import Mathlib

/-!
Shallow embedding of the `codedeploy_deployment` resource of
terraform-provider-codedeploy (package `internal/provider`).

The repository holds two versions of the resource file; the current one
(`part_001`) defines `resourceDeploymentCreate/Read/Update/Delete` and the
three `prepareDeploymentInputWith...` resolvers; the older one (`part_000`)
is embedded under namespace `V0` where a claim compares the two.

Remote calls (`CreateDeployment`, the waiter's `WaitForOutput`,
`StopDeployment`, `GetDeployment`) and the host runtime's `d.Set` are
external collaborators; each lifecycle function is modelled as a pure
function of the outcomes those collaborators would return, and the model
records the observable effects (diagnostics returned, `SetId` effect, which
`StopDeployment` calls were issued, what was submitted).

AWS SDK pointer-typed deployment ids are modelled as plain strings: the
code dereferences `*deployment.DeploymentId` on the success path, so a nil
id is outside every behaviour the claims range over.
-/

/-! ## Diagnostics (terraform-plugin-sdk `diag`) -/

inductive Severity where
  | error
  | warning
deriving DecidableEq, Repr

structure Diagnostic where
  severity : Severity
  summary : String
deriving DecidableEq, Repr

/-- `diag.FromErr`: nil error gives nil diagnostics, otherwise one
error-severity diagnostic carrying the error message. -/
def diagFromErr : Option String → List Diagnostic
  | none => []
  | some e => [⟨Severity.error, e⟩]

/-! ## SHA-256 (`crypto/sha256` + `encoding/hex`), over `Nat` bytes -/

def M32 : Nat := 4294967296

def add32 (a b : Nat) : Nat := (a + b) % M32

def rotr32 (n x : Nat) : Nat := (x >>> n) ||| ((x <<< (32 - n)) % M32)

def xor32 (a b : Nat) : Nat := Nat.xor a b

def and32 (a b : Nat) : Nat := Nat.land a b

def not32 (a : Nat) : Nat := Nat.xor a 4294967295

def shaCh (x y z : Nat) : Nat := xor32 (and32 x y) (and32 (not32 x) z)

def shaMaj (x y z : Nat) : Nat := xor32 (xor32 (and32 x y) (and32 x z)) (and32 y z)

def sigmaBig0 (x : Nat) : Nat := xor32 (xor32 (rotr32 2 x) (rotr32 13 x)) (rotr32 22 x)

def sigmaBig1 (x : Nat) : Nat := xor32 (xor32 (rotr32 6 x) (rotr32 11 x)) (rotr32 25 x)

def sigmaSmall0 (x : Nat) : Nat := xor32 (xor32 (rotr32 7 x) (rotr32 18 x)) (x >>> 3)

def sigmaSmall1 (x : Nat) : Nat := xor32 (xor32 (rotr32 17 x) (rotr32 19 x)) (x >>> 10)

def shaK : List Nat :=
  [1116352408, 1899447441, 3049323471, 3921009573, 961987163,
   1508970993, 2453635748, 2870763221, 3624381080, 310598401,
   607225278, 1426881987, 1925078388, 2162078206, 2614888103,
   3248222580, 3835390401, 4022224774, 264347078, 604807628,
   770255983, 1249150122, 1555081692, 1996064986, 2554220882,
   2821834349, 2952996808, 3210313671, 3336571891, 3584528711,
   113926993, 338241895, 666307205, 773529912, 1294757372,
   1396182291, 1695183700, 1986661051, 2177026350, 2456956037,
   2730485921, 2820302411, 3259730800, 3345764771, 3516065817,
   3600352804, 4094571909, 275423344, 430227734, 506948616,
   659060556, 883997877, 958139571, 1322822218, 1537002063,
   1747873779, 1955562222, 2024104815, 2227730452, 2361852424,
   2428436474, 2756734187, 3204031479, 3329325298]

def shaH0 : List Nat :=
  [1779033703, 3144134277, 1013904242, 2773480762, 1359893119,
   2600822924, 528734635, 1541459225]

/-- UTF-8 encoding of one code point, as byte values. -/
def utf8EncodeChar (c : Char) : List Nat :=
  let n := c.toNat
  if n < 128 then [n]
  else if n < 2048 then [192 + n / 64, 128 + n % 64]
  else if n < 65536 then [224 + n / 4096, 128 + (n / 64) % 64, 128 + n % 64]
  else [240 + n / 262144, 128 + (n / 4096) % 64, 128 + (n / 64) % 64, 128 + n % 64]

/-- The byte sequence of a string (Go `[]byte(content)`). -/
def strBytes (s : String) : List Nat :=
  s.data.foldr (fun c acc => utf8EncodeChar c ++ acc) []

/-- Big-endian 8-byte encoding of the bit length. -/
def lenBytes (len : Nat) : List Nat :=
  let bits := 8 * len
  [bits / 2 ^ 56 % 256, bits / 2 ^ 48 % 256, bits / 2 ^ 40 % 256, bits / 2 ^ 32 % 256,
   bits / 2 ^ 24 % 256, bits / 2 ^ 16 % 256, bits / 2 ^ 8 % 256, bits % 256]

/-- SHA-256 padding: append 0x80, zero-fill to 56 mod 64, append bit length. -/
def padMessage (bs : List Nat) : List Nat :=
  bs ++ [128] ++ List.replicate ((119 - bs.length % 64) % 64) 0 ++ lenBytes bs.length

/-- Group bytes into big-endian 32-bit words. -/
def bytesToWords : List Nat → List Nat
  | b0 :: b1 :: b2 :: b3 :: rest => (((b0 * 256 + b1) * 256 + b2) * 256 + b3) :: bytesToWords rest
  | _ => []

/-- Split a byte list into 64-byte blocks (fuel keeps recursion structural). -/
def toBlocksFuel : Nat → List Nat → List (List Nat)
  | 0, _ => []
  | _ + 1, [] => []
  | fuel + 1, bs => bs.take 64 :: toBlocksFuel fuel (bs.drop 64)

/-- Split a byte list into 64-byte blocks. -/
def toBlocks (bs : List Nat) : List (List Nat) :=
  toBlocksFuel bs.length bs

/-- Message-schedule extension, accumulator kept newest-first. -/
def extendLoop : Nat → List Nat → List Nat
  | 0, acc => acc
  | n + 1, acc =>
      let wt := add32 (add32 (sigmaSmall1 (acc.getD 1 0)) (acc.getD 6 0))
                      (add32 (sigmaSmall0 (acc.getD 14 0)) (acc.getD 15 0))
      extendLoop n (wt :: acc)

/-- The 64-word message schedule of one block. -/
def schedule (block : List Nat) : List Nat :=
  (extendLoop 48 (bytesToWords block).reverse).reverse

/-- One SHA-256 compression round. -/
def shaRound (st : Nat × Nat × Nat × Nat × Nat × Nat × Nat × Nat) (kw : Nat × Nat) :
    Nat × Nat × Nat × Nat × Nat × Nat × Nat × Nat :=
  match st, kw with
  | (a, b, c, d, e, f, g, h), (k, w) =>
      let t1 := add32 h (add32 (sigmaBig1 e) (add32 (shaCh e f g) (add32 k w)))
      let t2 := add32 (sigmaBig0 a) (shaMaj a b c)
      (add32 t1 t2, a, b, c, add32 d t1, e, f, g)

/-- Compress one 64-byte block into the hash state (8 words). -/
def compressBlock (H : List Nat) (block : List Nat) : List Nat :=
  match H with
  | [h0, h1, h2, h3, h4, h5, h6, h7] =>
      match (shaK.zip (schedule block)).foldl shaRound (h0, h1, h2, h3, h4, h5, h6, h7) with
      | (a, b, c, d, e, f, g, h) =>
          [add32 h0 a, add32 h1 b, add32 h2 c, add32 h3 d,
           add32 h4 e, add32 h5 f, add32 h6 g, add32 h7 h]
  | _ => H

/-- Big-endian bytes of one 32-bit word. -/
def wordBytes (w : Nat) : List Nat :=
  [w / 2 ^ 24 % 256, w / 2 ^ 16 % 256, w / 2 ^ 8 % 256, w % 256]

/-- SHA-256 digest (32 bytes) of a byte sequence. -/
def sha256Bytes (bs : List Nat) : List Nat :=
  ((toBlocks (padMessage bs)).foldl compressBlock shaH0).foldr (fun w acc => wordBytes w ++ acc) []

/-- Lowercase hex digit, as `encoding/hex` produces. -/
def hexDigit (n : Nat) : Char :=
  if n < 10 then Char.ofNat (48 + n) else Char.ofNat (87 + n)

/-- `hex.EncodeToString` over a byte list (lowercase). -/
def hexEncode (bs : List Nat) : String :=
  String.mk (bs.foldr (fun b acc => hexDigit (b / 16) :: hexDigit (b % 16) :: acc) [])

/-- `hex.EncodeToString(sha256.Sum256([]byte(s))[:])`. -/
def sha256Hex (s : String) : String :=
  hexEncode (sha256Bytes (strBytes s))

/-! ## AWS SDK data model (`codedeploy` / `codedeploy/types`)

String-enum values used by the code:
`RevisionLocationTypeS3 = "S3"`, `RevisionLocationTypeGitHub = "GitHub"`,
`RevisionLocationTypeAppSpecContent = "AppSpecContent"`;
`DeploymentStatusSucceeded = "Succeeded"`, `DeploymentStatusFailed =
"Failed"`, `DeploymentStatusStopped = "Stopped"`. -/

structure S3Location where
  bucket : Option String
  key : Option String
  bundleType : String
deriving DecidableEq, Repr

structure GitHubLocation where
  repository : Option String
  commitId : Option String
deriving DecidableEq, Repr

structure AppSpecContent where
  content : Option String
  sha256 : Option String
deriving DecidableEq, Repr

structure RevisionLocation where
  revisionType : String
  s3Location : Option S3Location
  gitHubLocation : Option GitHubLocation
  appSpecContent : Option AppSpecContent
deriving DecidableEq, Repr

structure CreateDeploymentInput where
  applicationName : Option String
  deploymentGroupName : Option String
  revision : Option RevisionLocation
deriving DecidableEq, Repr

/-- The zero `CreateDeploymentInput` value left by `var input ...` when no
switch case assigns it. -/
def zeroCreateDeploymentInput : CreateDeploymentInput :=
  { applicationName := none, deploymentGroupName := none, revision := none }

/-- `GetDeployment` result's `DeploymentInfo`; the deployment id models the
non-nil `*string` of the remote record. -/
structure DeploymentInfo where
  deploymentId : String
  status : String
deriving DecidableEq, Repr

/-- `CreateDeployment` output; the id models the non-nil `*string` the
success path dereferences. -/
structure CreateDeploymentOutput where
  deploymentId : String
deriving DecidableEq, Repr

/-- The waiter's `*GetDeploymentOutput`; the create path only compares it
against nil. -/
structure GetDeploymentOutput where
  deploymentInfo : Option DeploymentInfo
deriving DecidableEq, Repr

/-! ## Raw schema blocks handed to the resolvers

Each structure models the `map[string]any` the code extracts from
`d.Get("revision")` for one nested block; Go map entries the functions
type-assert to `string` are modelled as `String`, and the `sha256` entry
the code compares against nil is modelled as `Option String` (`none` = nil
entry). -/

structure S3LocationArgs where
  bucket : String
  key : String
  bundleType : String
deriving DecidableEq, Repr

structure GitHubLocationArgs where
  repository : String
  commitId : String
deriving DecidableEq, Repr

structure AppSpecContentArgs where
  content : String
  sha256 : Option String
deriving DecidableEq, Repr

/-- The `revision` block: discriminator plus the three optional nested
single-item blocks (`none` models an absent block, whose access would be a
runtime type-assertion panic in the Go code). -/
structure RevisionBlock where
  revisionType : String
  s3Location : Option S3LocationArgs
  gitHubLocation : Option GitHubLocationArgs
  appSpecContent : Option AppSpecContentArgs
deriving DecidableEq, Repr

/-! ## Revision resolvers (current file, `part_001`) -/

/-- `prepareDeploymentInputWithS3Location` (part_001). -/
def prepareDeploymentInputWithS3Location (applicationName deploymentGroupName : String)
    (s3Location : S3LocationArgs) : CreateDeploymentInput :=
  { applicationName := some applicationName
    deploymentGroupName := some deploymentGroupName
    revision := some
      { revisionType := "S3"
        s3Location := some
          { bucket := some s3Location.bucket
            key := some s3Location.key
            bundleType := s3Location.bundleType }
        gitHubLocation := none
        appSpecContent := none } }

/-- `prepareDeploymentInputWithGitHubLocation` (part_001). -/
def prepareDeploymentInputWithGitHubLocation (applicationName deploymentGroupName : String)
    (githubLocation : GitHubLocationArgs) : CreateDeploymentInput :=
  { applicationName := some applicationName
    deploymentGroupName := some deploymentGroupName
    revision := some
      { revisionType := "GitHub"
        s3Location := none
        gitHubLocation := some
          { repository := some githubLocation.repository
            commitId := some githubLocation.commitId }
        appSpecContent := none } }

/-- `prepareDeploymentInputWithAppSpecContent` (part_001): a nil `sha256`
entry means the digest is computed from the content; any non-nil entry,
the empty string included, is passed through verbatim. -/
def prepareDeploymentInputWithAppSpecContent (applicationName deploymentGroupName : String)
    (appSpecContent : AppSpecContentArgs) : CreateDeploymentInput :=
  let content := appSpecContent.content
  let sha256Hash :=
    match appSpecContent.sha256 with
    | none => sha256Hex content
    | some h => h
  { applicationName := some applicationName
    deploymentGroupName := some deploymentGroupName
    revision := some
      { revisionType := "AppSpecContent"
        s3Location := none
        gitHubLocation := none
        appSpecContent := some
          { content := some content
            sha256 := some sha256Hash } } }

/-! ## Revision resolvers (older file, `part_000`) -/

namespace V0

/-- `prepareDeploymentInputWithS3Location` (part_000). -/
def prepareDeploymentInputWithS3Location (applicationName deploymentGroupName : String)
    (s3Location : S3LocationArgs) : CreateDeploymentInput :=
  { applicationName := some applicationName
    deploymentGroupName := some deploymentGroupName
    revision := some
      { revisionType := "S3"
        s3Location := some
          { bucket := some s3Location.bucket
            key := some s3Location.key
            bundleType := s3Location.bundleType }
        gitHubLocation := none
        appSpecContent := none } }

/-- `prepareDeploymentInputWithGitHubLocation` (part_000). -/
def prepareDeploymentInputWithGitHubLocation (applicationName deploymentGroupName : String)
    (githubLocation : GitHubLocationArgs) : CreateDeploymentInput :=
  { applicationName := some applicationName
    deploymentGroupName := some deploymentGroupName
    revision := some
      { revisionType := "GitHub"
        s3Location := none
        gitHubLocation := some
          { repository := some githubLocation.repository
            commitId := some githubLocation.commitId }
        appSpecContent := none } }

/-- `prepareDeploymentInputWithAppSpecContent` (part_000). -/
def prepareDeploymentInputWithAppSpecContent (applicationName deploymentGroupName : String)
    (appSpecContent : AppSpecContentArgs) : CreateDeploymentInput :=
  let content := appSpecContent.content
  let sha256Hash :=
    match appSpecContent.sha256 with
    | none => sha256Hex content
    | some h => h
  { applicationName := some applicationName
    deploymentGroupName := some deploymentGroupName
    revision := some
      { revisionType := "AppSpecContent"
        s3Location := none
        gitHubLocation := none
        appSpecContent := some
          { content := some content
            sha256 := some sha256Hash } } }

end V0

/-! ## The lifecycle controller (part_001) -/

/-- Duration in nanoseconds, as Go `time.Duration`. -/
def timeSecond : Int := 1000000000

/-- The `switch revisionType` of `resourceDeploymentCreate` (part_001,
lines 160-171): dispatch purely on the discriminator, taking the first
element of the matching nested block; `none` models the runtime
type-assertion panic when that block is absent, and a tag outside the three
known values leaves `input` at its zero value (the switch has no default
branch). -/
def resolveDeploymentInput (applicationName deploymentGroupName : String)
    (revision : RevisionBlock) : Option CreateDeploymentInput :=
  if revision.revisionType = "S3" then
    (revision.s3Location).map
      (prepareDeploymentInputWithS3Location applicationName deploymentGroupName)
  else if revision.revisionType = "GitHub" then
    (revision.gitHubLocation).map
      (prepareDeploymentInputWithGitHubLocation applicationName deploymentGroupName)
  else if revision.revisionType = "AppSpecContent" then
    (revision.appSpecContent).map
      (prepareDeploymentInputWithAppSpecContent applicationName deploymentGroupName)
  else
    some zeroCreateDeploymentInput

/-- Declared configuration the create path reads from the resource data. -/
structure CreateConfig where
  applicationName : String
  deploymentGroupName : String
  revision : RevisionBlock
  autoRollbackEnabled : Bool
  timeoutCreate : Int
deriving DecidableEq, Repr

/-- Outcomes the external collaborators would return during one create:
`submit` is `CreateDeployment`, `waitOutput`/`waitErr` the waiter's
`WaitForOutput` pair, `stopErr` the error of a `StopDeployment` call were
one issued, `readFetch`/`setStatusErr` the collaborator outcomes of the
tail `resourceDeploymentRead`. -/
structure CreateBehavior where
  submit : Except String CreateDeploymentOutput
  waitOutput : Option GetDeploymentOutput
  waitErr : Option String
  stopErr : Option String
  readFetch : Except String DeploymentInfo
  setStatusErr : Option String
deriving Repr

/-- A `StopDeployment` call as issued: its deployment id and rollback flag. -/
structure StopCall where
  deploymentId : String
  autoRollbackEnabled : Bool
deriving DecidableEq, Repr

/-- Observable outcome of `resourceDeploymentRead`: the diagnostics
returned and the `deployment_status` value written (none when the fetch
failed or `d.Set` errored). -/
structure ReadResult where
  diags : List Diagnostic
  statusWritten : Option String
deriving DecidableEq, Repr

/-- `resourceDeploymentRead` (part_001, lines 207-227). `fetch` is the
`GetDeployment(d.Id())` outcome, `setStatusErr` the error `d.Set` would
return. When `d.Set` fails, the code returns `diag.FromErr(err)` where
`err` is the fetch error, already nil on this path. -/
def resourceDeploymentRead (fetch : Except String DeploymentInfo)
    (setStatusErr : Option String) : ReadResult :=
  match fetch with
  | Except.error e => { diags := diagFromErr (some e), statusWritten := none }
  | Except.ok deployment =>
      match setStatusErr with
      | some _ => { diags := diagFromErr none, statusWritten := none }
      | none => { diags := [], statusWritten := some deployment.status }

/-- Observable outcome of `resourceDeploymentCreate`: diagnostics, the
`d.SetId` effect (`none` = never called), the `StopDeployment` calls
issued, the `deployment_status` written by the tail read, the input passed
to `CreateDeployment`, and the waiter configuration (`o.MaxDelay` and the
`maxWaitDur` argument) when the waiter was constructed. -/
structure CreateResult where
  diags : List Diagnostic
  finalId : Option String
  stopCalls : List StopCall
  statusWritten : Option String
  submittedInput : CreateDeploymentInput
  waiterMaxDelay : Option Int
  waitDeadline : Option Int
deriving DecidableEq, Repr

/-- `resourceDeploymentCreate` (part_001, lines 150-205). `none` models the
type-assertion panic when the nested block matching the discriminator is
absent. On wait failure the code stops the deployment exactly when the
waiter's output is nil, appending any stop error to the wait diagnostics;
on wait success it persists the id and runs the read. -/
def resourceDeploymentCreate (cfg : CreateConfig) (b : CreateBehavior) :
    Option CreateResult :=
  (resolveDeploymentInput cfg.applicationName cfg.deploymentGroupName cfg.revision).map
    fun input =>
      match b.submit with
      | Except.error e =>
          { diags := diagFromErr (some e), finalId := none, stopCalls := []
            statusWritten := none, submittedInput := input
            waiterMaxDelay := none, waitDeadline := none }
      | Except.ok deployment =>
          let delay : Int := 15 * timeSecond
          let maxDelay := some delay
          let deadline := some (cfg.timeoutCreate - delay)
          match b.waitErr with
          | some werr =>
              if b.waitOutput = none then
                { diags := diagFromErr (some werr) ++ diagFromErr b.stopErr
                  finalId := none
                  stopCalls := [⟨deployment.deploymentId, cfg.autoRollbackEnabled⟩]
                  statusWritten := none, submittedInput := input
                  waiterMaxDelay := maxDelay, waitDeadline := deadline }
              else
                { diags := diagFromErr (some werr), finalId := none, stopCalls := []
                  statusWritten := none, submittedInput := input
                  waiterMaxDelay := maxDelay, waitDeadline := deadline }
          | none =>
              let rd := resourceDeploymentRead b.readFetch b.setStatusErr
              { diags := rd.diags, finalId := some deployment.deploymentId
                stopCalls := [], statusWritten := rd.statusWritten
                submittedInput := input
                waiterMaxDelay := maxDelay, waitDeadline := deadline }

/-- `resourceDeploymentUpdate` (part_001, lines 229-232): a no-op. -/
def resourceDeploymentUpdate : List Diagnostic := []

/-- Observable outcome of `resourceDeploymentDelete`. -/
structure DeleteResult where
  diags : List Diagnostic
  stopCalls : List StopCall
deriving DecidableEq, Repr

/-- `resourceDeploymentDelete` (part_001, lines 234-272). `fetch` is the
`GetDeployment(d.Id())` outcome; `stopErr` the error a `StopDeployment`
call would return. Every diagnostic the function builds is a warning. -/
def resourceDeploymentDelete (autoRollbackEnabled : Bool)
    (fetch : Except String DeploymentInfo) (stopErr : Option String) : DeleteResult :=
  match fetch with
  | Except.error e => { diags := [⟨Severity.warning, e⟩], stopCalls := [] }
  | Except.ok info =>
      if info.status ≠ "Succeeded" ∧ info.status ≠ "Failed" ∧ info.status ≠ "Stopped" then
        match stopErr with
        | some e =>
            { diags := [⟨Severity.warning, e⟩]
              stopCalls := [⟨info.deploymentId, autoRollbackEnabled⟩] }
        | none =>
            { diags := [], stopCalls := [⟨info.deploymentId, autoRollbackEnabled⟩] }
      else
        { diags := [], stopCalls := [] }

theorem sha256Hex_empty_test :
    sha256Hex "" = "e3b0c44298fc1c149afbf4c8996fb92427ae41e4649b934ca495991b7852b855" := by
  rfl

theorem sha256Hex_hello_test : sha256Hex "hello" ≠ "" := by
  decide

theorem sha256Hex_abc_test :
    sha256Hex "abc" = "ba7816bf8f01cfea414140de5dae2223b00361a396177a9cb410ff61f20015ad" := by
  rfl

/-! ## Claims -/

/-- C5: when the delete operation's status fetch errors, delete does not
fail, issues no Stop call, and returns exactly one non-fatal warning
diagnostic carrying the fetch error. -/
theorem claimC5_delete_fetch_error_warns (roll : Bool) (e : String) (stopErr : Option String) :
    resourceDeploymentDelete roll (Except.error e) stopErr =
      { diags := [⟨Severity.warning, e⟩], stopCalls := [] } := rfl

/-- C8: when the read operation's status fetch succeeds but writing
`deployment_status` into local state fails, read returns no diagnostics at
all (the error it builds comes from the already-nil fetch error), so the
failed local write is reported as success and no status is stored. -/
theorem claimC8_read_set_failure_reports_success (info : DeploymentInfo) (e : String) :
    resourceDeploymentRead (Except.ok info) (some e) =
      { diags := [], statusWritten := none } := rfl

/-- C9: the three revision-preparation functions of the older resource
file (`V0`, part_000) and the newer one (part_001) are extensionally
equal: for every application name, group name and variant argument block
they produce the same deployment request. -/
theorem claimC9_versions_extensionally_equal (app grp : String) :
    (∀ s3 : S3LocationArgs,
        V0.prepareDeploymentInputWithS3Location app grp s3 =
          prepareDeploymentInputWithS3Location app grp s3) ∧
    (∀ gh : GitHubLocationArgs,
        V0.prepareDeploymentInputWithGitHubLocation app grp gh =
          prepareDeploymentInputWithGitHubLocation app grp gh) ∧
    (∀ asc : AppSpecContentArgs,
        V0.prepareDeploymentInputWithAppSpecContent app grp asc =
          prepareDeploymentInputWithAppSpecContent app grp asc) :=
  ⟨fun _ => rfl, fun _ => rfl, fun _ => rfl⟩

/-- C3 counterexample: the claim says an explicitly empty hash field also
triggers digest computation, but the code only computes the digest when
the map entry is nil; an explicitly empty string is non-nil and is passed
through verbatim: for content `"hello"` and supplied hash `""`, the
request carries `""`, which is not the SHA-256 digest of `"hello"`. -/
theorem claimC3_counterexample :
    (prepareDeploymentInputWithAppSpecContent "app" "grp"
        { content := "hello", sha256 := some "" }).revision =
      some { revisionType := "AppSpecContent", s3Location := none, gitHubLocation := none
             appSpecContent := some { content := some "hello", sha256 := some "" } } ∧
    sha256Hex "hello" ≠ "" :=
  ⟨rfl, by decide⟩

/-- C3 amended: if the optional hash entry is nil (unset), the resolver
stores the lowercase hex-encoded SHA-256 digest of the content string's
bytes; any supplied hash value — the empty string included — is passed
through verbatim with no validation against the content. -/
theorem claimC3_amended (app grp : String) (a : AppSpecContentArgs) :
    (prepareDeploymentInputWithAppSpecContent app grp a).revision =
      some { revisionType := "AppSpecContent", s3Location := none, gitHubLocation := none
             appSpecContent := some
               { content := some a.content
                 sha256 := some (a.sha256.getD (sha256Hex a.content)) } } := by
  rcases a with ⟨c, s⟩
  cases s <;> rfl

/-- Exactly the revision variant selected by `tag` is populated in the
request, and the discriminator field equals `tag`. -/
def revisionMatches (tag : String) (input : CreateDeploymentInput) : Prop :=
  match input.revision with
  | none => False
  | some r =>
      r.revisionType = tag ∧
      (tag = "S3" → r.s3Location ≠ none ∧ r.gitHubLocation = none ∧ r.appSpecContent = none) ∧
      (tag = "GitHub" → r.s3Location = none ∧ r.gitHubLocation ≠ none ∧ r.appSpecContent = none) ∧
      (tag = "AppSpecContent" →
        r.s3Location = none ∧ r.gitHubLocation = none ∧ r.appSpecContent ≠ none)

/-- C7: for each of the three revision discriminator values, the resolved
deployment request has `revision_type` equal to the input discriminator,
exactly the matching variant populated, and the other two variants
unpopulated. -/
theorem claimC7_revision_matches_discriminator
    (app grp : String) (rev : RevisionBlock) (input : CreateDeploymentInput)
    (hres : resolveDeploymentInput app grp rev = some input)
    (htag : rev.revisionType = "S3" ∨ rev.revisionType = "GitHub" ∨
      rev.revisionType = "AppSpecContent") :
    revisionMatches rev.revisionType input := by
  rcases htag with h | h | h
  · cases hblk : rev.s3Location with
    | none => simp [resolveDeploymentInput, h, hblk] at hres
    | some args =>
        simp [resolveDeploymentInput, h, hblk] at hres
        subst hres
        rw [h]
        simp [revisionMatches, prepareDeploymentInputWithS3Location]
  · cases hblk : rev.gitHubLocation with
    | none => simp [resolveDeploymentInput, h, hblk] at hres
    | some args =>
        simp [resolveDeploymentInput, h, hblk] at hres
        subst hres
        rw [h]
        simp [revisionMatches, prepareDeploymentInputWithGitHubLocation]
  · cases hblk : rev.appSpecContent with
    | none => simp [resolveDeploymentInput, h, hblk] at hres
    | some args =>
        simp [resolveDeploymentInput, h, hblk] at hres
        subst hres
        rw [h]
        simp [revisionMatches, prepareDeploymentInputWithAppSpecContent]

/-- C7 witness: the invariant at a concrete GitHub-variant input. -/
theorem claimC7_witness :
    resolveDeploymentInput "app" "grp"
        { revisionType := "GitHub", s3Location := none
          gitHubLocation := some { repository := "r", commitId := "c" }
          appSpecContent := none } =
      some (prepareDeploymentInputWithGitHubLocation "app" "grp"
        { repository := "r", commitId := "c" }) ∧
    revisionMatches "GitHub"
      (prepareDeploymentInputWithGitHubLocation "app" "grp"
        { repository := "r", commitId := "c" }) :=
  ⟨rfl, claimC7_revision_matches_discriminator "app" "grp"
    { revisionType := "GitHub", s3Location := none
      gitHubLocation := some { repository := "r", commitId := "c" }
      appSpecContent := none } _ rfl (Or.inr (Or.inl rfl))⟩

/-- C10: for a revision discriminator outside the three known tags, the
create dispatch has no default branch: it neither fails nor populates any
revision, and the request handed to the remote submit call is the
zero-valued input — no application name, no group name, no revision. -/
theorem claimC10_unknown_tag_submits_zero_input
    (app grp : String) (rev : RevisionBlock) (roll : Bool) (t : Int) (b : CreateBehavior)
    (h1 : rev.revisionType ≠ "S3") (h2 : rev.revisionType ≠ "GitHub")
    (h3 : rev.revisionType ≠ "AppSpecContent") :
    resolveDeploymentInput app grp rev = some zeroCreateDeploymentInput ∧
    (resourceDeploymentCreate ⟨app, grp, rev, roll, t⟩ b).map CreateResult.submittedInput =
      some zeroCreateDeploymentInput := by
  have hres : resolveDeploymentInput app grp rev = some zeroCreateDeploymentInput := by
    simp [resolveDeploymentInput, h1, h2, h3]
  refine ⟨hres, ?_⟩
  simp only [resourceDeploymentCreate, hres, Option.map_some']
  cases hb : b.submit <;> cases hw : b.waitErr <;> cases ho : b.waitOutput <;>
    simp [hb, hw, ho, resourceDeploymentRead]

/-- C10 witness: the dispatch behaviour at the concrete unknown tag
`"Bogus"`. -/
theorem claimC10_witness :
    ("Bogus" ≠ "S3") ∧ ("Bogus" ≠ "GitHub") ∧ ("Bogus" ≠ "AppSpecContent") ∧
    (resolveDeploymentInput "app" "grp"
        { revisionType := "Bogus", s3Location := none
          gitHubLocation := none, appSpecContent := none } =
          some zeroCreateDeploymentInput ∧
      (resourceDeploymentCreate
          ⟨"app", "grp",
            { revisionType := "Bogus", s3Location := none
              gitHubLocation := none, appSpecContent := none }, true, 3600 * timeSecond⟩
          { submit := Except.error "rejected", waitOutput := none, waitErr := none
            stopErr := none, readFetch := Except.error "unused"
            setStatusErr := none }).map CreateResult.submittedInput =
        some zeroCreateDeploymentInput) :=
  ⟨by decide, by decide, by decide,
    claimC10_unknown_tag_submits_zero_input "app" "grp"
      { revisionType := "Bogus", s3Location := none
        gitHubLocation := none, appSpecContent := none } true (3600 * timeSecond)
      { submit := Except.error "rejected", waitOutput := none, waitErr := none
        stopErr := none, readFetch := Except.error "unused", setStatusErr := none }
      (by decide) (by decide) (by decide)⟩

/-- C4: on delete with a successful status fetch, a terminal status
({Succeeded, Failed, Stopped}) means no Stop call and a clean success; any
other status means exactly one Stop call with the deployment id and the
configured rollback flag, a Stop error surfacing as one warning, and in
every case delete returns no error-severity diagnostic. The fetched
record's id is the stored id handed to `GetDeployment`, which the remote
echoes back (`hid`). -/
theorem claimC4_delete_fetch_success (storedId : String) (roll : Bool)
    (info : DeploymentInfo) (stopErr : Option String)
    (hid : info.deploymentId = storedId) :
    (info.status = "Succeeded" ∨ info.status = "Failed" ∨ info.status = "Stopped" →
       resourceDeploymentDelete roll (Except.ok info) stopErr =
         { diags := [], stopCalls := [] }) ∧
    (info.status ≠ "Succeeded" → info.status ≠ "Failed" → info.status ≠ "Stopped" →
       (resourceDeploymentDelete roll (Except.ok info) stopErr).stopCalls =
         [{ deploymentId := storedId, autoRollbackEnabled := roll }] ∧
       (stopErr = none → (resourceDeploymentDelete roll (Except.ok info) stopErr).diags = []) ∧
       (∀ e, stopErr = some e →
         (resourceDeploymentDelete roll (Except.ok info) stopErr).diags =
           [⟨Severity.warning, e⟩])) ∧
    (∀ dg ∈ (resourceDeploymentDelete roll (Except.ok info) stopErr).diags,
       dg.severity = Severity.warning) := by
  subst hid
  by_cases hc : info.status ≠ "Succeeded" ∧ info.status ≠ "Failed" ∧ info.status ≠ "Stopped"
  · refine ⟨fun hterm => ?_, fun _ _ _ => ?_, ?_⟩
    · rcases hc with ⟨h1, h2, h3⟩
      rcases hterm with ht | ht | ht
      · exact absurd ht h1
      · exact absurd ht h2
      · exact absurd ht h3
    · cases stopErr with
      | some e =>
          have hdel : resourceDeploymentDelete roll (Except.ok info) (some e) =
              { diags := [⟨Severity.warning, e⟩]
                stopCalls := [⟨info.deploymentId, roll⟩] } := by
            simp [resourceDeploymentDelete, hc]
          rw [hdel]
          refine ⟨rfl, fun hnone => ?_, fun e' he' => ?_⟩
          · cases hnone
          · injection he' with h
            rw [h]
      | none =>
          have hdel : resourceDeploymentDelete roll (Except.ok info) none =
              { diags := [], stopCalls := [⟨info.deploymentId, roll⟩] } := by
            simp [resourceDeploymentDelete, hc]
          rw [hdel]
          refine ⟨rfl, fun _ => rfl, fun e' he' => ?_⟩
          cases he'
    · cases stopErr with
      | some e =>
          have hdel : resourceDeploymentDelete roll (Except.ok info) (some e) =
              { diags := [⟨Severity.warning, e⟩]
                stopCalls := [⟨info.deploymentId, roll⟩] } := by
            simp [resourceDeploymentDelete, hc]
          rw [hdel]
          intro dg hdg
          simp only [List.mem_singleton] at hdg
          rw [hdg]
      | none =>
          have hdel : resourceDeploymentDelete roll (Except.ok info) none =
              { diags := [], stopCalls := [⟨info.deploymentId, roll⟩] } := by
            simp [resourceDeploymentDelete, hc]
          rw [hdel]
          intro dg hdg
          cases hdg
  · have hdel : resourceDeploymentDelete roll (Except.ok info) stopErr =
        { diags := [], stopCalls := [] } := by
      simp [resourceDeploymentDelete, hc]
    refine ⟨fun _ => hdel, fun h1 h2 h3 => absurd ⟨h1, h2, h3⟩ hc, ?_⟩
    rw [hdel]
    intro dg hdg
    cases hdg

/-- C4 witness: an in-flight deployment (`InProgress`) with a failing Stop
call, at a concrete input. -/
theorem claimC4_witness :
    (DeploymentInfo.mk "d-9" "InProgress").deploymentId = "d-9" ∧
    (resourceDeploymentDelete true (Except.ok ⟨"d-9", "InProgress"⟩) (some "stop refused")).stopCalls =
      [{ deploymentId := "d-9", autoRollbackEnabled := true }] ∧
    (resourceDeploymentDelete true (Except.ok ⟨"d-9", "InProgress"⟩) (some "stop refused")).diags =
      [⟨Severity.warning, "stop refused"⟩] :=
  ⟨rfl,
    ((claimC4_delete_fetch_success "d-9" true ⟨"d-9", "InProgress"⟩ (some "stop refused") rfl).2.1
      (by decide) (by decide) (by decide)).1,
    ((claimC4_delete_fetch_success "d-9" true ⟨"d-9", "InProgress"⟩ (some "stop refused") rfl).2.1
      (by decide) (by decide) (by decide)).2.2 "stop refused" rfl⟩

/-- C6: whenever the submit step succeeds, the create path configures the
waiter with a maximum inter-poll delay of 15 seconds and passes it a wait
deadline of the configured create timeout minus that same 15 seconds. -/
theorem claimC6_waiter_config (cfg : CreateConfig) (b : CreateBehavior)
    (out : CreateDeploymentOutput) (res : CreateResult)
    (hres : resourceDeploymentCreate cfg b = some res)
    (hsub : b.submit = Except.ok out) :
    res.waiterMaxDelay = some (15 * timeSecond) ∧
    res.waitDeadline = some (cfg.timeoutCreate - 15 * timeSecond) := by
  cases hro : resolveDeploymentInput cfg.applicationName cfg.deploymentGroupName cfg.revision with
  | none => simp [resourceDeploymentCreate, hro] at hres
  | some input =>
      cases hw : b.waitErr with
      | none =>
          simp [resourceDeploymentCreate, hro, hsub, hw] at hres
          subst hres
          exact ⟨rfl, rfl⟩
      | some werr =>
          simp [resourceDeploymentCreate, hro, hsub, hw] at hres
          by_cases ho : b.waitOutput = none
          · rw [if_pos ho] at hres
            subst hres
            exact ⟨rfl, rfl⟩
          · rw [if_neg ho] at hres
            subst hres
            exact ⟨rfl, rfl⟩

/-- A concrete GitHub-variant revision block used by concrete runs. -/
def sampleRevisionBlock : RevisionBlock :=
  { revisionType := "GitHub", s3Location := none
    gitHubLocation := some { repository := "org/repo", commitId := "c0ffee" }
    appSpecContent := none }

/-- A concrete create configuration used by concrete runs. -/
def sampleConfig : CreateConfig :=
  { applicationName := "app", deploymentGroupName := "grp"
    revision := sampleRevisionBlock
    autoRollbackEnabled := true, timeoutCreate := 3600 * timeSecond }

/-- A concrete fully-clean create run: submit returns `d-123`, the wait
succeeds, the tail read fetches a `Succeeded` record and the local write
succeeds. -/
def cleanCreateBehavior : CreateBehavior :=
  { submit := Except.ok { deploymentId := "d-123" }
    waitOutput := some { deploymentInfo := some ⟨"d-123", "Succeeded"⟩ }
    waitErr := none, stopErr := none
    readFetch := Except.ok ⟨"d-123", "Succeeded"⟩, setStatusErr := none }

/-- C6 witness: the waiter configuration of a concrete run with a
60-minute timeout. -/
theorem claimC6_witness :
    cleanCreateBehavior.submit = Except.ok { deploymentId := "d-123" } ∧
    (resourceDeploymentCreate sampleConfig cleanCreateBehavior).map CreateResult.waiterMaxDelay =
      some (some (15 * timeSecond)) ∧
    (resourceDeploymentCreate sampleConfig cleanCreateBehavior).map CreateResult.waitDeadline =
      some (some (3600 * timeSecond - 15 * timeSecond)) := by
  obtain ⟨res, hres⟩ : ∃ r, resourceDeploymentCreate sampleConfig cleanCreateBehavior = some r :=
    ⟨_, rfl⟩
  have h := claimC6_waiter_config sampleConfig cleanCreateBehavior
    { deploymentId := "d-123" } res hres rfl
  simp only [hres, Option.map_some', Option.some.injEq]
  exact ⟨rfl, h.1, h.2.trans rfl⟩

/-- C1 counterexample: the claim says a wait failure with the waiter's
output absent leads to no Stop call, and a wait failure with output
present leads to a Stop call. The code tests `output == nil` the other way
round: in a concrete run with absent output the controller issues a Stop
call for the submitted deployment, and in a concrete run with present
output it issues none. -/
theorem claimC1_counterexample :
    (resourceDeploymentCreate sampleConfig
        { submit := Except.ok { deploymentId := "d-1" }, waitOutput := none
          waitErr := some "exceeded max wait time", stopErr := none
          readFetch := Except.error "unused", setStatusErr := none }).map
      CreateResult.stopCalls =
      some [{ deploymentId := "d-1", autoRollbackEnabled := true }] ∧
    (resourceDeploymentCreate sampleConfig
        { submit := Except.ok { deploymentId := "d-1" }
          waitOutput := some { deploymentInfo := some ⟨"d-1", "InProgress"⟩ }
          waitErr := some "waiter state transitioned to Failed", stopErr := none
          readFetch := Except.error "unused", setStatusErr := none }).map
      CreateResult.stopCalls = some [] :=
  ⟨rfl, rfl⟩

/-- C1 amended: on wait failure, if the waiter's output is absent the
controller calls Stop with the submitted deployment id and the configured
rollback flag and appends any Stop error to (not replacing) the original
wait-failure diagnostics; if the waiter's output is present, no Stop call
is attempted and only the wait-failure diagnostics are returned. In both
cases create fails with no identity persisted. -/
theorem claimC1_amended (cfg : CreateConfig) (b : CreateBehavior)
    (out : CreateDeploymentOutput) (werr : String) (res : CreateResult)
    (hres : resourceDeploymentCreate cfg b = some res)
    (hsub : b.submit = Except.ok out)
    (hw : b.waitErr = some werr) :
    res.finalId = none ∧
    (b.waitOutput = none →
       res.stopCalls = [⟨out.deploymentId, cfg.autoRollbackEnabled⟩] ∧
       res.diags = ⟨Severity.error, werr⟩ :: diagFromErr b.stopErr) ∧
    (b.waitOutput ≠ none →
       res.stopCalls = [] ∧ res.diags = [⟨Severity.error, werr⟩]) := by
  cases hro : resolveDeploymentInput cfg.applicationName cfg.deploymentGroupName cfg.revision with
  | none => simp [resourceDeploymentCreate, hro] at hres
  | some input =>
      simp [resourceDeploymentCreate, hro, hsub, hw] at hres
      by_cases ho : b.waitOutput = none
      · rw [if_pos ho] at hres
        subst hres
        refine ⟨rfl, fun _ => ⟨rfl, ?_⟩, fun hno => absurd ho hno⟩
        simp [diagFromErr]
      · rw [if_neg ho] at hres
        subst hres
        exact ⟨rfl, fun h => absurd h ho, fun _ => ⟨rfl, by simp [diagFromErr]⟩⟩

/-- C1 witness: concrete wait-timeout run with absent output and a
failing Stop call; the Stop error is appended after the wait error and
the identity is not persisted. -/
theorem claimC1_witness :
    (resourceDeploymentCreate sampleConfig
        { submit := Except.ok { deploymentId := "d-1" }, waitOutput := none
          waitErr := some "exceeded max wait time", stopErr := some "stop refused"
          readFetch := Except.error "unused", setStatusErr := none }).map
      CreateResult.finalId = some none ∧
    (resourceDeploymentCreate sampleConfig
        { submit := Except.ok { deploymentId := "d-1" }, waitOutput := none
          waitErr := some "exceeded max wait time", stopErr := some "stop refused"
          readFetch := Except.error "unused", setStatusErr := none }).map
      CreateResult.stopCalls =
      some [{ deploymentId := "d-1", autoRollbackEnabled := true }] ∧
    (resourceDeploymentCreate sampleConfig
        { submit := Except.ok { deploymentId := "d-1" }, waitOutput := none
          waitErr := some "exceeded max wait time", stopErr := some "stop refused"
          readFetch := Except.error "unused", setStatusErr := none }).map
      CreateResult.diags =
      some [⟨Severity.error, "exceeded max wait time"⟩, ⟨Severity.error, "stop refused"⟩] := by
  obtain ⟨res, hres⟩ : ∃ r, resourceDeploymentCreate sampleConfig
      { submit := Except.ok { deploymentId := "d-1" }, waitOutput := none
        waitErr := some "exceeded max wait time", stopErr := some "stop refused"
        readFetch := Except.error "unused", setStatusErr := none } = some r := ⟨_, rfl⟩
  have h := claimC1_amended sampleConfig
    { submit := Except.ok { deploymentId := "d-1" }, waitOutput := none
      waitErr := some "exceeded max wait time", stopErr := some "stop refused"
      readFetch := Except.error "unused", setStatusErr := none }
    { deploymentId := "d-1" } "exceeded max wait time" res hres rfl rfl
  have h2 := h.2.1 rfl
  simp only [hres, Option.map_some', Option.some.injEq]
  exact ⟨h.1, h2.1.trans rfl, h2.2.trans rfl⟩

/-- C2 counterexample: the claim says create either fully succeeds or
fails with no identity ever persisted. In a concrete run where submit and
the wait succeed but the tail read's status fetch errors, create returns
error diagnostics and the identity is already persisted. -/
theorem claimC2_counterexample :
    (resourceDeploymentCreate sampleConfig
        { submit := Except.ok { deploymentId := "d-123" }
          waitOutput := some { deploymentInfo := some ⟨"d-123", "Succeeded"⟩ }
          waitErr := none, stopErr := none
          readFetch := Except.error "remote unreachable", setStatusErr := none }).map
      CreateResult.diags = some [⟨Severity.error, "remote unreachable"⟩] ∧
    (resourceDeploymentCreate sampleConfig
        { submit := Except.ok { deploymentId := "d-123" }
          waitOutput := some { deploymentInfo := some ⟨"d-123", "Succeeded"⟩ }
          waitErr := none, stopErr := none
          readFetch := Except.error "remote unreachable", setStatusErr := none }).map
      CreateResult.finalId = some (some "d-123") :=
  ⟨rfl, rfl⟩

/-- C2 amended: create persists the identity exactly when the wait step
succeeds. Submit or wait failure returns error diagnostics with no
identity persisted, and whenever no identity was persisted the
diagnostics are non-empty; a failure arising in the post-create read
returns error diagnostics with the identity already persisted; when the
read also fully succeeds, create returns no diagnostics and both identity
and status are populated. -/
theorem claimC2_amended (cfg : CreateConfig) (b : CreateBehavior) (res : CreateResult)
    (hres : resourceDeploymentCreate cfg b = some res) :
    (res.finalId = none → res.diags ≠ []) ∧
    (∀ e, b.submit = Except.error e → res.finalId = none) ∧
    (b.waitErr ≠ none → res.finalId = none) ∧
    (∀ out, b.submit = Except.ok out → b.waitErr = none →
       res.finalId = some out.deploymentId) ∧
    (∀ out info, b.submit = Except.ok out → b.waitErr = none →
       b.readFetch = Except.ok info → b.setStatusErr = none →
       res.diags = [] ∧ res.statusWritten = some info.status) := by
  cases hro : resolveDeploymentInput cfg.applicationName cfg.deploymentGroupName cfg.revision with
  | none => simp [resourceDeploymentCreate, hro] at hres
  | some input =>
      cases hb : b.submit with
      | error e =>
          simp [resourceDeploymentCreate, hro, hb] at hres
          subst hres
          refine ⟨fun _ => by simp [diagFromErr], fun _ _ => rfl, fun _ => rfl, ?_, ?_⟩
          · intro out hout _
            exact Except.noConfusion hout
          · intro out info hout _ _ _
            exact Except.noConfusion hout
      | ok out =>
          cases hw : b.waitErr with
          | some werr =>
              simp [resourceDeploymentCreate, hro, hb, hw] at hres
              have hfin : res.finalId = none ∧ res.diags ≠ [] := by
                by_cases ho : b.waitOutput = none
                · rw [if_pos ho] at hres
                  subst hres
                  exact ⟨rfl, by simp [diagFromErr]⟩
                · rw [if_neg ho] at hres
                  subst hres
                  exact ⟨rfl, by simp [diagFromErr]⟩
              refine ⟨fun _ => hfin.2, fun _ _ => hfin.1, fun _ => hfin.1, ?_, ?_⟩
              · intro out' _ hw'
                exact Option.noConfusion hw'
              · intro out' info _ hw' _ _
                exact Option.noConfusion hw'
          | none =>
              simp [resourceDeploymentCreate, hro, hb, hw] at hres
              subst hres
              refine ⟨fun hf => ?_, fun e he => ?_, fun hne => absurd rfl hne, ?_, ?_⟩
              · exact Option.noConfusion hf
              · exact Except.noConfusion he
              · intro out' hout' _
                injection hout' with heq
                subst heq
                rfl
              · intro out' info _ _ hrf hset
                constructor
                · show (resourceDeploymentRead b.readFetch b.setStatusErr).diags = []
                  rw [hrf, hset]
                  rfl
                · show (resourceDeploymentRead b.readFetch b.setStatusErr).statusWritten =
                    some info.status
                  rw [hrf, hset]
                  rfl

/-- C2 witness: a concrete fully-clean run persists identity `d-123`,
returns no diagnostics, and stores the observed status. -/
theorem claimC2_witness :
    (resourceDeploymentCreate sampleConfig cleanCreateBehavior).map CreateResult.finalId =
      some (some "d-123") ∧
    (resourceDeploymentCreate sampleConfig cleanCreateBehavior).map CreateResult.diags =
      some [] ∧
    (resourceDeploymentCreate sampleConfig cleanCreateBehavior).map CreateResult.statusWritten =
      some (some "Succeeded") := by
  obtain ⟨res, hres⟩ : ∃ r, resourceDeploymentCreate sampleConfig cleanCreateBehavior = some r :=
    ⟨_, rfl⟩
  have h := claimC2_amended sampleConfig cleanCreateBehavior res hres
  have h4 := h.2.2.2.1 { deploymentId := "d-123" } rfl rfl
  have h5 := h.2.2.2.2 { deploymentId := "d-123" } ⟨"d-123", "Succeeded"⟩ rfl rfl rfl rfl
  simp only [hres, Option.map_some', Option.some.injEq]
  exact ⟨h4.trans rfl, h5.1, h5.2.trans rfl⟩
